import Mathlib

/-!
Verification of the CarPi audio ducker (`audio_ducker.py`).

The Python source is shallowly embedded: JSON values become an inductive
`JVal`, the settings dictionary becomes an association list with Python
`dict.update` semantics, the real-valued audio math (`db_to_linear`,
`linear_to_db`, `calculate_rms`, the per-block `process` callback) is
embedded over `ℝ`, and the side-effecting boundaries (file persistence,
`subprocess` invocations, the JACK callback's exception guard) are embedded
as pure functions over explicit state, parametrised by the fallible
environment where the failure originates outside the embedded code.
-/

/-- Embeds a flat JSON value as stored in `~/audio_ducker_config.json`:
the settings file only holds numbers, booleans and strings. -/
inductive JVal where
  | num (q : ℚ) : JVal
  | str (s : String) : JVal
  | bool (b : Bool) : JVal
  deriving DecidableEq

/-- A Python `dict` with string keys, as an association list (insertion
order preserved, first binding of a key is its value). -/
abbrev Dict := List (String × JVal)

/-- Embeds Python `dict.update(overrides)` (used at `audio_ducker.py:217`
and `audio_ducker.py:492`): every key already present keeps its position
but takes the overriding value when one is given, and keys of `overrides`
that are new are appended. -/
def dictUpdate (base overrides : Dict) : Dict :=
  base.map (fun kv =>
    match overrides.lookup kv.1 with
    | some v => (kv.1, v)
    | none => kv)
  ++ overrides.filter (fun kv => (base.lookup kv.1).isNone)

/-- Left-biased choice on `Option`, spelling out what "defaults overlaid
with persisted values" means key-wise. -/
def firstSome (a b : Option JVal) : Option JVal :=
  match a with
  | some v => some v
  | none => b

namespace AudioDucker

/-- Embeds the `defaults` dict of `AudioDucker.load_settings`
(`audio_ducker.py:182`-`audio_ducker.py:211`), keys in source order. -/
def defaults : Dict := [
  ("primary_threshold_db", JVal.num (-40)),
  ("duck_amount_db", JVal.num (-20)),
  ("attack_time_ms", JVal.num 50),
  ("release_time_ms", JVal.num 500),
  ("primary_source", JVal.str "carplay"),
  ("secondary_source", JVal.str "line_in"),
  ("show_vu_meters", JVal.bool true),
  ("output_device", JVal.str "system"),
  ("primary_gain_db", JVal.num 0),
  ("secondary_gain_db", JVal.num 0),
  ("output_gain_db", JVal.num 0),
  ("hold_time_ms", JVal.num 100),
  ("ducking_mode", JVal.str "standard"),
  ("enable_limiter", JVal.bool true),
  ("limiter_threshold_db", JVal.num (-1)),
  ("enable_compressor", JVal.bool false),
  ("compressor_ratio", JVal.num 4)]

/-- Embeds `AudioDucker.load_settings` (`audio_ducker.py:180`-`audio_ducker.py:222`).
The file system and JSON parser are outside the embedded code, so the
outcome of `os.path.exists` + `json.load` is the parameter: `none` stands
for a missing file and for the `except` branch taken on an unparsable
file (both leave `defaults` untouched); `some loaded` stands for a
successfully parsed dict, which is merged by `defaults.update(loaded)`. -/
def load_settings (parsed : Option Dict) : Dict :=
  match parsed with
  | none => defaults
  | some loaded => dictUpdate defaults loaded

/-- Embeds the body of `api_update_settings` (`audio_ducker.py:489`-`audio_ducker.py:494`)
as it acts on the settings dict: `ducker.settings.update(data)`. -/
def update_settings (settings delta : Dict) : Dict :=
  dictUpdate settings delta

/-- Embeds `AudioDucker.save_settings` (`audio_ducker.py:224`-`audio_ducker.py:230`)
against an explicit file state. `open(self.config_file, "w")` truncates the
file, then `json.dump` streams the serialised settings to it chunk by
chunk; `serialized` is that chunk sequence, and `fault = some k` is a
runtime write fault raised after `k` chunks (caught by the `except`
branch, which only prints). Returns (in-memory settings, file contents,
whether an error was logged). The in-memory settings are returned as
passed because the source's `save_settings` never assigns to
`self.settings`. -/
def save_settings (settings : Dict) (serialized : List String)
    (fault : Option Nat) (_file : Option (List String)) :
    Dict × Option (List String) × Bool :=
  match fault with
  | none => (settings, some serialized, false)
  | some k => (settings, some (serialized.take k), true)

end AudioDucker

/-- Embeds the guard structure of the JACK process callback
(`audio_ducker.py:257`-`audio_ducker.py:350`): the whole block computation
sits inside `try:`, and `except Exception` only prints. The block body is
the parameter `body`, an arbitrary fallible computation (its failures —
numpy faults, port faults — originate outside the embedded code); on
success its result is written to the output buffers, on failure the
buffers keep their previous contents. -/
def jackProcessCallback {α β : Type} (body : α → Except String β)
    (buffers : β) (x : α) : β :=
  match body x with
  | Except.ok out => out
  | Except.error _ => buffers

/-- Embeds the initial `self.last_metrics` snapshot set up in
`AudioDucker.__init__` (`audio_ducker.py:152`-`audio_ducker.py:163`). -/
structure Metrics where
  primary_level_db : ℚ
  secondary_level_db : ℚ
  output_level_db : ℚ
  primary_peak_db : ℚ
  secondary_peak_db : ℚ
  output_peak_db : ℚ
  duck_amount : ℚ
  primary_active : Bool
  clipping : Bool
  deriving DecidableEq

/-- The value assigned to `self.last_metrics` at `audio_ducker.py:153`. -/
def initial_last_metrics : Metrics :=
  { primary_level_db := -100
    secondary_level_db := -100
    output_level_db := -100
    primary_peak_db := -100
    secondary_peak_db := -100
    output_peak_db := -100
    duck_amount := 1
    primary_active := false
    clipping := false }

/-- Embeds the `/api/metrics` handler (`audio_ducker.py:520`-`audio_ducker.py:525`):
it returns `ducker.last_metrics`, or an empty payload (`none`) when the
global `ducker` was never constructed. -/
def api_metrics (ducker : Option Metrics) : Option Metrics :=
  match ducker with
  | none => none
  | some last_metrics => some last_metrics

/-- Embeds `AUDIO_CONNECTIONS` (`audio_ducker.py:53`-`audio_ducker.py:78`). -/
def AUDIO_CONNECTIONS : List (String × String) := [
  ("MS210x Video Grabber [EasierCAP] Analog Stereo:capture_FL",
   "AudioDucker:secondary_in_L"),
  ("MS210x Video Grabber [EasierCAP] Analog Stereo:capture_FR",
   "AudioDucker:secondary_in_R"),
  ("Chromium:output_FL", "AudioDucker:primary_in_L"),
  ("Chromium:output_FR", "AudioDucker:primary_in_R"),
  ("AudioDucker:output_L", "Fosi Audio Q6 Analog Stereo:playback_FL"),
  ("AudioDucker:output_R", "Fosi Audio Q6 Analog Stereo:playback_FR")]

/-- A record appended to `connected` by `run_autoconnect`
(`audio_ducker.py:103`-`audio_ducker.py:110`); the Python keys `from` and
`to` become `fromPort` and `toPort`. -/
structure ConnOk where
  fromPort : String
  toPort : String
  returncode : Int
  stderr : String
  deriving DecidableEq

/-- A record appended to `failed` by `run_autoconnect`
(`audio_ducker.py:112`). -/
structure ConnFail where
  fromPort : String
  toPort : String
  error : String
  deriving DecidableEq

/-- The dict returned by `run_autoconnect` (`audio_ducker.py:114`): exactly
the two keys `connected` and `failed`. -/
structure AutoconnectResult where
  connected : List ConnOk
  failed : List ConnFail
  deriving DecidableEq

/-- The loop body of `run_autoconnect` over a list of port pairs
(`audio_ducker.py:93`-`audio_ducker.py:112`). `run src dst` is the
environment's `subprocess.run(["pw-jack", "jack_connect", src, dst], ...)`:
`Except.ok (returncode, stderr)` when the call returns (any return code
counts as connected, matching the source), `Except.error e` when it raises
(`str(e)` is recorded); the `try` in the loop catches per pair. -/
def autoconnectLoop (run : String → String → Except String (Int × String)) :
    List (String × String) → List ConnOk × List ConnFail
  | [] => ([], [])
  | (src, dst) :: rest =>
    let acc := autoconnectLoop run rest
    match run src dst with
    | Except.ok (rc, err) => (⟨src, dst, rc, err.trim⟩ :: acc.1, acc.2)
    | Except.error e => (acc.1, ⟨src, dst, e⟩ :: acc.2)

/-- Embeds `run_autoconnect` (`audio_ducker.py:81`-`audio_ducker.py:114`),
parametrised by the `subprocess.run` environment. -/
def run_autoconnect (run : String → String → Except String (Int × String)) :
    AutoconnectResult :=
  let acc := autoconnectLoop run AUDIO_CONNECTIONS
  { connected := acc.1, failed := acc.2 }

/-- The configured pair a `connected` record was built from. -/
def ConnOk.pair (c : ConnOk) : String × String := (c.fromPort, c.toPort)

/-- The configured pair a `failed` record was built from. -/
def ConnFail.pair (c : ConnFail) : String × String := (c.fromPort, c.toPort)

namespace AudioDucker

/-- The numeric settings fields read by the `process` callback, as reals
(the dict values are floats; `Settings` is the typed view the callback
reads through `self.settings[...]`). -/
structure Settings where
  primary_threshold_db : ℝ
  duck_amount_db : ℝ
  attack_time_ms : ℝ
  release_time_ms : ℝ
  primary_gain_db : ℝ
  secondary_gain_db : ℝ
  output_gain_db : ℝ

/-- The mutable audio state of the engine touched by one `process` call
(`audio_ducker.py:139`-`audio_ducker.py:145`). -/
structure EngineState where
  duck_amount : ℝ
  target_duck : ℝ
  primary_level : ℝ
  secondary_level : ℝ
  output_level : ℝ
  clipping : Bool

/-- Embeds `AudioDucker.db_to_linear` (`audio_ducker.py:235`-`audio_ducker.py:238`):
`10 ** (db / 20.0)`. -/
noncomputable def db_to_linear (db : ℝ) : ℝ :=
  (10 : ℝ) ^ (db / 20)

/-- Embeds `AudioDucker.linear_to_db` (`audio_ducker.py:240`-`audio_ducker.py:245`):
`-100.0` when `linear <= 0`, else `20 * np.log10(linear)`. -/
noncomputable def linear_to_db (linear : ℝ) : ℝ :=
  if linear ≤ 0 then -100 else 20 * Real.logb 10 linear

/-- Embeds `AudioDucker.calculate_rms` (`audio_ducker.py:247`-`audio_ducker.py:252`):
`0.0` for an empty buffer, else `sqrt(mean(x ** 2))`. -/
noncomputable def calculate_rms (buf : List ℝ) : ℝ :=
  if buf.length = 0 then 0
  else Real.sqrt (((buf.map (fun x => x ^ 2)).sum) / buf.length)

/-- Elementwise scaling of a buffer by a scalar, as in `primary_l *=
primary_gain` (`audio_ducker.py:270`) and `secondary_l * self.duck_amount`
(`audio_ducker.py:318`). -/
noncomputable def applyGain (g : ℝ) (buf : List ℝ) : List ℝ :=
  buf.map (fun x => x * g)

/-- The peak absolute sample across two buffers:
`max(np.abs(output_l).max(), np.abs(output_r).max())`
(`audio_ducker.py:331`). (`np.max` of an empty buffer raises in the
source, which the callback's guard absorbs; the embedding returns `0`
there, and agrees with the source on every nonempty block.) -/
noncomputable def peakAbs (l r : List ℝ) : ℝ :=
  ((l ++ r).map (fun x => |x|)).foldr max 0

/-- One pre-limiter output channel (`audio_ducker.py:317`-`audio_ducker.py:328`):
the post-gain primary plus the ducked post-gain secondary, scaled by the
output gain. -/
noncomputable def mixedChannel (s : Settings) (duck : ℝ) (p sc : List ℝ) :
    List ℝ :=
  applyGain (db_to_linear s.output_gain_db)
    (List.zipWith (· + ·) (applyGain (db_to_linear s.primary_gain_db) p)
      (applyGain duck (applyGain (db_to_linear s.secondary_gain_db) sc)))

/-- Embeds the limiter step (`audio_ducker.py:330`-`audio_ducker.py:335`)
together with the clipping flag it records (`audio_ducker.py:332`):
returns the two output buffers and `clipping`. -/
noncomputable def limiter (l r : List ℝ) : List ℝ × List ℝ × Bool :=
  let max_val := peakAbs l r
  if max_val > 1 then
    (l.map (fun x => x / max_val), r.map (fun x => x / max_val), true)
  else
    (l, r, false)

/-- Embeds the body of the `process` callback
(`audio_ducker.py:257`-`audio_ducker.py:347`) as a pure block transformer:
given the settings, the samplerate, the engine state before the block and
the four input buffers of the block (`frames` is the JACK block size, the
length of every buffer), it returns the engine state after the block and
the two output buffers. -/
noncomputable def process (s : Settings) (samplerate : ℝ) (st : EngineState)
    (primary_l primary_r secondary_l secondary_r : List ℝ) (frames : ℕ) :
    EngineState × List ℝ × List ℝ :=
  let primary_gain := db_to_linear s.primary_gain_db
  let secondary_gain := db_to_linear s.secondary_gain_db
  let pl := applyGain primary_gain primary_l
  let pr := applyGain primary_gain primary_r
  let sl := applyGain secondary_gain secondary_l
  let sr := applyGain secondary_gain secondary_r
  let primary_rms := max (calculate_rms pl) (calculate_rms pr)
  let secondary_rms := max (calculate_rms sl) (calculate_rms sr)
  let primary_db := linear_to_db primary_rms
  let target_duck :=
    if primary_db > s.primary_threshold_db then db_to_linear s.duck_amount_db
    else 1
  let attack_samples := s.attack_time_ms / 1000 * samplerate
  let release_samples := s.release_time_ms / 1000 * samplerate
  let duck_amount :=
    if target_duck < st.duck_amount then
      max target_duck
        (st.duck_amount - (st.duck_amount - target_duck) / max attack_samples 1 * frames)
    else
      min target_duck
        (st.duck_amount + (target_duck - st.duck_amount) / max release_samples 1 * frames)
  let out_l := mixedChannel s duck_amount primary_l secondary_l
  let out_r := mixedChannel s duck_amount primary_r secondary_r
  let lim := limiter out_l out_r
  let output_rms := max (calculate_rms lim.1) (calculate_rms lim.2.1)
  ({ duck_amount := duck_amount
     target_duck := target_duck
     primary_level := primary_rms
     secondary_level := secondary_rms
     output_level := output_rms
     clipping := lim.2.2 },
   lim.1, lim.2.1)

end AudioDucker

/-! ## Association-list lemmas for the settings dictionary -/

/-- Looking a key up in a concatenation tries the left part first. -/
theorem lookup_append_eq {α β : Type} [BEq α] (k : α) (A B : List (α × β)) :
    List.lookup k (A ++ B) =
      match List.lookup k A with
      | some v => some v
      | none => List.lookup k B := by
  induction A with
  | nil => simp [List.lookup]
  | cons kv rest ih =>
    obtain ⟨k', v'⟩ := kv
    by_cases h : k == k'
    · simp [List.lookup, h]
    · simp only [List.cons_append, List.lookup, h]
      exact ih

/-- Looking a key up in the overridden copy of `base` built by `dictUpdate`
gives the override when one exists, else the base value. -/
theorem lookup_map_override (k : String) (o base : Dict) :
    List.lookup k (base.map (fun kv =>
      match o.lookup kv.1 with
      | some v => (kv.1, v)
      | none => kv)) =
      match base.lookup k with
      | none => none
      | some v => some (match o.lookup k with | some w => w | none => v) := by
  induction base with
  | nil => simp [List.lookup]
  | cons kv rest ih =>
    obtain ⟨k', v'⟩ := kv
    by_cases h : k == k'
    · have hk : k = k' := by simpa using h
      subst hk
      cases ho : o.lookup k <;>
        simp [List.lookup, ho]
    · cases ho : o.lookup k' <;>
        · simp only [List.map_cons, List.lookup, ho, h]
          exact ih

/-- Filtering by a predicate that holds at key `k` does not change the
lookup at `k`. -/
theorem lookup_filter_of_true (k : String) (o : Dict) (p : String → Bool)
    (hp : p k = true) :
    List.lookup k (o.filter (fun kv => p kv.1)) = List.lookup k o := by
  induction o with
  | nil => simp
  | cons kv rest ih =>
    obtain ⟨k', v'⟩ := kv
    by_cases h : k == k'
    · have hk : k = k' := by simpa using h
      subst hk
      simp [List.filter, hp, List.lookup]
    · cases hpk : p k'
      · simp only [List.filter, hpk]
        simp only [List.lookup, h] at ih ⊢
        exact ih
      · simp only [List.filter, hpk]
        simp only [List.lookup, h]
        exact ih

/-- Key-wise semantics of Python `dict.update`: the merged dict binds every
key to the override when present, else to the base value. -/
theorem dictUpdate_lookup (base o : Dict) (k : String) :
    (dictUpdate base o).lookup k = firstSome (o.lookup k) (base.lookup k) := by
  unfold dictUpdate
  rw [lookup_append_eq, lookup_map_override]
  cases hb : base.lookup k with
  | some v =>
    cases ho : o.lookup k <;> simp [firstSome, ho]
  | none =>
    have hf : List.lookup k (o.filter (fun kv => (base.lookup kv.1).isNone)) =
        List.lookup k o :=
      lookup_filter_of_true k o (fun x => (List.lookup x base).isNone)
        (by simp [hb])
    rw [hf]
    cases ho : o.lookup k <;> simp [firstSome]

/-! ## Claim theorems: configuration, metrics, callback boundary, routing -/

/-- C6: `load()` returns the defaults overlaid with the successfully parsed
persisted values (key-wise: the persisted value when present, else the
default), and for an unparsable or missing file it returns exactly the
pure defaults, no error reaching the caller. -/
theorem AudioDucker.load_settings_overlay (loaded : Dict) (k : String) :
    (AudioDucker.load_settings (some loaded)).lookup k =
      firstSome (loaded.lookup k) (AudioDucker.defaults.lookup k) ∧
    AudioDucker.load_settings none = AudioDucker.defaults :=
  ⟨dictUpdate_lookup _ _ _, rfl⟩

/-- C8: a partial settings update changes exactly the keys present in the
partial input — any key absent from the patch keeps its prior value (in
particular keys unknown to the default schema are retained), and any key
present in the patch gets the patch's value. -/
theorem AudioDucker.update_settings_frame (settings delta : Dict) (k : String) :
    (delta.lookup k = none →
      (AudioDucker.update_settings settings delta).lookup k =
        settings.lookup k) ∧
    (∀ v, delta.lookup k = some v →
      (AudioDucker.update_settings settings delta).lookup k = some v) := by
  constructor
  · intro h
    rw [AudioDucker.update_settings, dictUpdate_lookup, h]
    rfl
  · intro v h
    rw [AudioDucker.update_settings, dictUpdate_lookup, h]
    rfl

/-- Witness for C8 at the spec's own example `{"attack_time_ms": 10}`:
the patched key takes the new value and an untouched key keeps its prior
value. -/
theorem AudioDucker.update_settings_frame_witness :
    (AudioDucker.update_settings AudioDucker.defaults
        [("attack_time_ms", JVal.num 10)]).lookup "release_time_ms" =
      AudioDucker.defaults.lookup "release_time_ms" ∧
    (AudioDucker.update_settings AudioDucker.defaults
        [("attack_time_ms", JVal.num 10)]).lookup "attack_time_ms" =
      some (JVal.num 10) :=
  ⟨(AudioDucker.update_settings_frame AudioDucker.defaults
      [("attack_time_ms", JVal.num 10)] "release_time_ms").1 (by decide),
   (AudioDucker.update_settings_frame AudioDucker.defaults
      [("attack_time_ms", JVal.num 10)] "attack_time_ms").2
      (JVal.num 10) (by decide)⟩

/-- C9: before any snapshot has been published, the engine's metrics
snapshot is the well-defined initial value — every per-path current and
peak level at the `-100` dB floor, `duck_amount = 1`, primary-active
false, clipping false — and the `/api/metrics` read returns exactly it. -/
theorem initial_metrics_snapshot :
    api_metrics (some initial_last_metrics) = some initial_last_metrics ∧
    initial_last_metrics.primary_level_db = -100 ∧
    initial_last_metrics.secondary_level_db = -100 ∧
    initial_last_metrics.output_level_db = -100 ∧
    initial_last_metrics.primary_peak_db = -100 ∧
    initial_last_metrics.secondary_peak_db = -100 ∧
    initial_last_metrics.output_peak_db = -100 ∧
    initial_last_metrics.duck_amount = 1 ∧
    initial_last_metrics.primary_active = false ∧
    initial_last_metrics.clipping = false := by
  refine ⟨rfl, ?_, ?_, ?_, ?_, ?_, ?_, ?_, rfl, rfl⟩ <;> norm_num [initial_last_metrics]

/-- C5: the `try`/`except` guard of the JACK process callback absorbs any
failure of the block body — the callback always returns (it is a total
function of the body's outcome); on failure the output buffers keep their
previous (last valid) contents, and on success they hold the body's
result. -/
theorem jackProcessCallback_catches {α β : Type}
    (body : α → Except String β) (buffers : β) (x : α) :
    (∀ e, body x = Except.error e →
      jackProcessCallback body buffers x = buffers) ∧
    (∀ out, body x = Except.ok out →
      jackProcessCallback body buffers x = out) := by
  constructor <;> intro y h <;> simp [jackProcessCallback, h]

/-- Witness for C5: a body that fails leaves the buffers untouched. -/
theorem jackProcessCallback_catches_witness :
    jackProcessCallback
      (fun _ : Unit => (Except.error "numpy fault" : Except String (List ℚ)))
      [0] () = [0] :=
  (jackProcessCallback_catches
    (fun _ : Unit => (Except.error "numpy fault" : Except String (List ℚ)))
    [0] ()).1 "numpy fault" rfl

/-- C7 counterexample: the persisted form CAN be partially written. A
write fault after the first of two serialised chunks leaves the file
holding a strict prefix of the serialisation — neither the previous file
contents nor the full serialised form, refuting the all-or-nothing
claim for `save_settings` (which truncates and then streams). -/
theorem AudioDucker.save_settings_partial_write_cx :
    ¬ ((AudioDucker.save_settings [] ["chunkA", "chunkB"] (some 1)
          (some ["old"])).2.1 = some ["old"] ∨
       (AudioDucker.save_settings [] ["chunkA", "chunkB"] (some 1)
          (some ["old"])).2.1 = some ["chunkA", "chunkB"]) := by
  decide

/-- C7 amended: `save_settings` truncates the file and streams the
serialised settings, so after any fault the file holds some prefix of the
serialised form (the full form when no fault occurs); the fault is caught
and logged rather than crashing, and the in-memory settings are left
unchanged. -/
theorem AudioDucker.save_settings_fault_safe (settings : Dict)
    (serialized : List String) (fault : Option Nat)
    (file : Option (List String)) :
    (AudioDucker.save_settings settings serialized fault file).1 = settings ∧
    (∃ n, (AudioDucker.save_settings settings serialized fault file).2.1 =
      some (serialized.take n)) ∧
    (fault = none →
      (AudioDucker.save_settings settings serialized fault file).2.1 =
        some serialized) ∧
    (AudioDucker.save_settings settings serialized fault file).2.2 =
      fault.isSome := by
  cases fault with
  | none =>
    exact ⟨rfl, ⟨serialized.length, by simp [AudioDucker.save_settings]⟩,
      fun _ => rfl, rfl⟩
  | some k =>
    exact ⟨rfl, ⟨k, rfl⟩, fun h => Option.noConfusion h, rfl⟩

/-- Witness for C7's amended theorem: a fault-free save writes the full
form and keeps the in-memory settings. -/
theorem AudioDucker.save_settings_fault_safe_witness :
    (AudioDucker.save_settings [] ["chunkA", "chunkB"] none none).1 = [] ∧
    (AudioDucker.save_settings [] ["chunkA", "chunkB"] none none).2.1 =
      some ["chunkA", "chunkB"] :=
  ⟨(AudioDucker.save_settings_fault_safe [] ["chunkA", "chunkB"] none none).1,
   (AudioDucker.save_settings_fault_safe [] ["chunkA", "chunkB"]
      none none).2.2.1 rfl⟩

/-- The loop of `run_autoconnect` distributes the configured pairs over
the `connected` and `failed` lists: together (as a multiset) they are
exactly the processed pairs. -/
theorem autoconnectLoop_partitions
    (run : String → String → Except String (Int × String))
    (l : List (String × String)) :
    List.Perm
      ((autoconnectLoop run l).1.map ConnOk.pair ++
       (autoconnectLoop run l).2.map ConnFail.pair) l := by
  induction l with
  | nil => simp [autoconnectLoop]
  | cons hd rest ih =>
    obtain ⟨src, dst⟩ := hd
    cases h : run src dst with
    | ok v =>
      obtain ⟨rc, err⟩ := v
      simp only [autoconnectLoop, h, List.map_cons, List.cons_append,
        ConnOk.pair]
      exact ih.cons _
    | error e =>
      simp only [autoconnectLoop, h, List.map_cons, ConnFail.pair]
      exact List.perm_middle.trans (ih.cons _)

/-- C10: whatever the `subprocess` environment does (returns or raises,
per pair), `run_autoconnect` returns a result with exactly the
`connected` and `failed` fields, in which each configured pair lands in
exactly one of the two lists (their pair multisets partition
`AUDIO_CONNECTIONS`), so the two lengths sum to the number of configured
connections; the per-pair `try` means no exception escapes — the function
is total in the environment's outcome. -/
theorem run_autoconnect_partitions
    (run : String → String → Except String (Int × String)) :
    List.Perm
      ((run_autoconnect run).connected.map ConnOk.pair ++
       (run_autoconnect run).failed.map ConnFail.pair) AUDIO_CONNECTIONS ∧
    (run_autoconnect run).connected.length +
      (run_autoconnect run).failed.length = AUDIO_CONNECTIONS.length := by
  have h := autoconnectLoop_partitions run AUDIO_CONNECTIONS
  refine ⟨h, ?_⟩
  have hl := h.length_eq
  simpa using hl

/-! ## Claim theorems: dB conversion and the per-block engine -/

/-- C4: the dB conversions are mutually inverse on positive amplitudes —
`db_to_linear (linear_to_db x) = x` for every `x > 0` (exactly, in the
real-valued embedding) — and every non-positive amplitude (including `0`)
maps to the `-100` dB floor instead of negative infinity. -/
theorem AudioDucker.db_linear_roundtrip (x : ℝ) :
    (0 < x → AudioDucker.db_to_linear (AudioDucker.linear_to_db x) = x) ∧
    (x ≤ 0 → AudioDucker.linear_to_db x = -100) := by
  constructor
  · intro hx
    rw [AudioDucker.linear_to_db, if_neg (not_le.mpr hx),
      AudioDucker.db_to_linear]
    have h20 : (20 : ℝ) * Real.logb 10 x / 20 = Real.logb 10 x := by ring
    rw [h20]
    exact Real.rpow_logb (by norm_num) (by norm_num) hx
  · intro hx
    rw [AudioDucker.linear_to_db, if_pos hx]

/-- Witness for C4 at `x = 1` (round trip) and `x = 0` (floor). -/
theorem AudioDucker.db_linear_roundtrip_witness :
    ((0 : ℝ) < 1 ∧
      AudioDucker.db_to_linear (AudioDucker.linear_to_db 1) = 1) ∧
    ((0 : ℝ) ≤ 0 ∧ AudioDucker.linear_to_db 0 = -100) :=
  ⟨⟨by norm_num, (AudioDucker.db_linear_roundtrip 1).1 (by norm_num)⟩,
   ⟨le_refl 0, (AudioDucker.db_linear_roundtrip 0).2 (le_refl 0)⟩⟩

/-- The `target_duck` stored by `process` is the two-state threshold
decision of `audio_ducker.py:288`-`audio_ducker.py:295`, evaluated on the
post-gain primary RMS. -/
theorem AudioDucker.process_target_duck_eq (s : AudioDucker.Settings)
    (samplerate : ℝ) (st : AudioDucker.EngineState)
    (primary_l primary_r secondary_l secondary_r : List ℝ) (frames : ℕ) :
    (AudioDucker.process s samplerate st primary_l primary_r secondary_l
      secondary_r frames).1.target_duck =
      (if AudioDucker.linear_to_db (max
          (AudioDucker.calculate_rms (AudioDucker.applyGain
            (AudioDucker.db_to_linear s.primary_gain_db) primary_l))
          (AudioDucker.calculate_rms (AudioDucker.applyGain
            (AudioDucker.db_to_linear s.primary_gain_db) primary_r)))
          > s.primary_threshold_db
       then AudioDucker.db_to_linear s.duck_amount_db else 1) := rfl

/-- The `duck_amount` stored by `process` is the linear attack/release
ramp of `audio_ducker.py:297`-`audio_ducker.py:315` applied to the block's
`target_duck`. -/
theorem AudioDucker.process_duck_amount_eq (s : AudioDucker.Settings)
    (samplerate : ℝ) (st : AudioDucker.EngineState)
    (primary_l primary_r secondary_l secondary_r : List ℝ) (frames : ℕ) :
    (AudioDucker.process s samplerate st primary_l primary_r secondary_l
      secondary_r frames).1.duck_amount =
      (if (AudioDucker.process s samplerate st primary_l primary_r
            secondary_l secondary_r frames).1.target_duck < st.duck_amount then
        max (AudioDucker.process s samplerate st primary_l primary_r
              secondary_l secondary_r frames).1.target_duck
          (st.duck_amount -
            (st.duck_amount - (AudioDucker.process s samplerate st primary_l
              primary_r secondary_l secondary_r frames).1.target_duck) /
              max (s.attack_time_ms / 1000 * samplerate) 1 * frames)
      else
        min (AudioDucker.process s samplerate st primary_l primary_r
              secondary_l secondary_r frames).1.target_duck
          (st.duck_amount +
            ((AudioDucker.process s samplerate st primary_l primary_r
              secondary_l secondary_r frames).1.target_duck - st.duck_amount) /
              max (s.release_time_ms / 1000 * samplerate) 1 * frames)) := rfl

/-- C2: per block of `frames` samples, `process` sets `target_duck` to
`10 ^ (duck_amount_db / 20)` exactly when the post-gain primary RMS in dB
exceeds `primary_threshold_db` (else `1.0`), and then moves `duck_amount`
by the linear ramp `max(target, duck - ((duck - target) / max(attack_samples, 1)) * frames)`
with `attack_samples = attack_time_ms / 1000 * samplerate` when ducking
deeper, symmetrically with `release_time_ms` when releasing. -/
theorem AudioDucker.process_target_and_ramp (s : AudioDucker.Settings)
    (samplerate : ℝ) (st : AudioDucker.EngineState)
    (primary_l primary_r secondary_l secondary_r : List ℝ) (frames : ℕ) :
    (AudioDucker.process s samplerate st primary_l primary_r secondary_l
      secondary_r frames).1.target_duck =
      (if AudioDucker.linear_to_db (max
          (AudioDucker.calculate_rms (AudioDucker.applyGain
            (AudioDucker.db_to_linear s.primary_gain_db) primary_l))
          (AudioDucker.calculate_rms (AudioDucker.applyGain
            (AudioDucker.db_to_linear s.primary_gain_db) primary_r)))
          > s.primary_threshold_db
       then (10 : ℝ) ^ (s.duck_amount_db / 20) else 1) ∧
    (AudioDucker.process s samplerate st primary_l primary_r secondary_l
      secondary_r frames).1.duck_amount =
      (if (AudioDucker.process s samplerate st primary_l primary_r
            secondary_l secondary_r frames).1.target_duck < st.duck_amount then
        max (AudioDucker.process s samplerate st primary_l primary_r
              secondary_l secondary_r frames).1.target_duck
          (st.duck_amount -
            (st.duck_amount - (AudioDucker.process s samplerate st primary_l
              primary_r secondary_l secondary_r frames).1.target_duck) /
              max (s.attack_time_ms / 1000 * samplerate) 1 * frames)
      else
        min (AudioDucker.process s samplerate st primary_l primary_r
              secondary_l secondary_r frames).1.target_duck
          (st.duck_amount +
            ((AudioDucker.process s samplerate st primary_l primary_r
              secondary_l secondary_r frames).1.target_duck - st.duck_amount) /
              max (s.release_time_ms / 1000 * samplerate) 1 * frames)) :=
  ⟨AudioDucker.process_target_duck_eq s samplerate st primary_l primary_r
    secondary_l secondary_r frames,
   AudioDucker.process_duck_amount_eq s samplerate st primary_l primary_r
    secondary_l secondary_r frames⟩

/-- With a non-positive `duck_amount_db` the block's ducking target lies
in `(0, 1]`: it is either `1.0` or `10 ^ (duck_amount_db / 20)`. -/
theorem AudioDucker.process_target_duck_bounds (s : AudioDucker.Settings)
    (samplerate : ℝ) (st : AudioDucker.EngineState)
    (primary_l primary_r secondary_l secondary_r : List ℝ) (frames : ℕ)
    (hdb : s.duck_amount_db ≤ 0) :
    0 < (AudioDucker.process s samplerate st primary_l primary_r secondary_l
        secondary_r frames).1.target_duck ∧
      (AudioDucker.process s samplerate st primary_l primary_r secondary_l
        secondary_r frames).1.target_duck ≤ 1 := by
  rw [AudioDucker.process_target_duck_eq]
  by_cases hc : AudioDucker.linear_to_db (max
      (AudioDucker.calculate_rms (AudioDucker.applyGain
        (AudioDucker.db_to_linear s.primary_gain_db) primary_l))
      (AudioDucker.calculate_rms (AudioDucker.applyGain
        (AudioDucker.db_to_linear s.primary_gain_db) primary_r)))
      > s.primary_threshold_db
  · rw [if_pos hc, AudioDucker.db_to_linear]
    refine ⟨Real.rpow_pos_of_pos (by norm_num) _, ?_⟩
    exact Real.rpow_le_one_of_one_le_of_nonpos (by norm_num)
      (div_nonpos_iff.mpr (Or.inr ⟨hdb, by norm_num⟩))
  · rw [if_neg hc]
    norm_num

/-- C1: per block, the smoothed `duck_amount` stays inside the closed
interval between its previous value and the block's `target_duck` (it
moves monotonically toward the target and never overshoots), and — with a
non-positive `duck_amount_db` and a previous value in `[0, 1]` — it never
leaves `[0, 1]`. -/
theorem AudioDucker.process_duck_monotone_bounded (s : AudioDucker.Settings)
    (samplerate : ℝ) (st : AudioDucker.EngineState)
    (primary_l primary_r secondary_l secondary_r : List ℝ) (frames : ℕ)
    (hdb : s.duck_amount_db ≤ 0)
    (h0 : 0 ≤ st.duck_amount) (h1 : st.duck_amount ≤ 1) :
    min st.duck_amount
        (AudioDucker.process s samplerate st primary_l primary_r secondary_l
          secondary_r frames).1.target_duck ≤
      (AudioDucker.process s samplerate st primary_l primary_r secondary_l
        secondary_r frames).1.duck_amount ∧
    (AudioDucker.process s samplerate st primary_l primary_r secondary_l
        secondary_r frames).1.duck_amount ≤
      max st.duck_amount
        (AudioDucker.process s samplerate st primary_l primary_r secondary_l
          secondary_r frames).1.target_duck ∧
    0 ≤ (AudioDucker.process s samplerate st primary_l primary_r secondary_l
        secondary_r frames).1.duck_amount ∧
    (AudioDucker.process s samplerate st primary_l primary_r secondary_l
        secondary_r frames).1.duck_amount ≤ 1 := by
  obtain ⟨hT0, hT1⟩ := AudioDucker.process_target_duck_bounds s samplerate st
    primary_l primary_r secondary_l secondary_r frames hdb
  rw [AudioDucker.process_duck_amount_eq]
  set T := (AudioDucker.process s samplerate st primary_l primary_r
    secondary_l secondary_r frames).1.target_duck with hT
  set D := st.duck_amount with hD
  by_cases hlt : T < D
  · rw [if_pos hlt]
    have hstep : 0 ≤ (D - T) / max (s.attack_time_ms / 1000 * samplerate) 1 *
        (frames : ℝ) := by
      apply mul_nonneg
      · apply div_nonneg (sub_nonneg.mpr hlt.le)
        exact le_trans zero_le_one (le_max_right _ _)
      · exact Nat.cast_nonneg _
    refine ⟨le_trans (min_le_right _ _) (le_max_left _ _), ?_, ?_, ?_⟩
    · exact max_le (le_max_right _ _)
        (le_trans (sub_le_self _ hstep) (le_max_left _ _))
    · exact le_trans hT0.le (le_max_left _ _)
    · exact max_le hT1 (le_trans (sub_le_self _ hstep) h1)
  · rw [if_neg hlt]
    have hge : D ≤ T := not_lt.mp hlt
    have hstep : 0 ≤ (T - D) / max (s.release_time_ms / 1000 * samplerate) 1 *
        (frames : ℝ) := by
      apply mul_nonneg
      · apply div_nonneg (sub_nonneg.mpr hge)
        exact le_trans zero_le_one (le_max_right _ _)
      · exact Nat.cast_nonneg _
    refine ⟨?_, le_trans (min_le_left _ _) (le_max_right _ _), ?_, ?_⟩
    · exact le_min (min_le_right _ _)
        (le_trans (min_le_left _ _) (le_add_of_nonneg_right hstep))
    · exact le_min hT0.le (le_trans h0 (le_add_of_nonneg_right hstep))
    · exact le_trans (min_le_left _ _) hT1

/-- Witness for C1 on a concrete silent block with the default settings. -/
theorem AudioDucker.process_duck_monotone_bounded_witness :
    min (1 : ℝ)
        (AudioDucker.process ⟨-40, -20, 50, 500, 0, 0, 0⟩ 48000
          ⟨1, 1, 0, 0, 0, false⟩ [] [] [] [] 0).1.target_duck ≤
      (AudioDucker.process ⟨-40, -20, 50, 500, 0, 0, 0⟩ 48000
        ⟨1, 1, 0, 0, 0, false⟩ [] [] [] [] 0).1.duck_amount ∧
    (AudioDucker.process ⟨-40, -20, 50, 500, 0, 0, 0⟩ 48000
        ⟨1, 1, 0, 0, 0, false⟩ [] [] [] [] 0).1.duck_amount ≤
      max (1 : ℝ)
        (AudioDucker.process ⟨-40, -20, 50, 500, 0, 0, 0⟩ 48000
          ⟨1, 1, 0, 0, 0, false⟩ [] [] [] [] 0).1.target_duck ∧
    0 ≤ (AudioDucker.process ⟨-40, -20, 50, 500, 0, 0, 0⟩ 48000
        ⟨1, 1, 0, 0, 0, false⟩ [] [] [] [] 0).1.duck_amount ∧
    (AudioDucker.process ⟨-40, -20, 50, 500, 0, 0, 0⟩ 48000
        ⟨1, 1, 0, 0, 0, false⟩ [] [] [] [] 0).1.duck_amount ≤ 1 :=
  AudioDucker.process_duck_monotone_bounded ⟨-40, -20, 50, 500, 0, 0, 0⟩
    48000 ⟨1, 1, 0, 0, 0, false⟩ [] [] [] [] 0 (by norm_num) (by norm_num)
    (by norm_num)

/-- The block's outputs are the limiter applied to the two pre-limiter
mixed channels (`audio_ducker.py:317`-`audio_ducker.py:347`). -/
theorem AudioDucker.process_output_eq (s : AudioDucker.Settings)
    (samplerate : ℝ) (st : AudioDucker.EngineState)
    (primary_l primary_r secondary_l secondary_r : List ℝ) (frames : ℕ) :
    (AudioDucker.process s samplerate st primary_l primary_r secondary_l
        secondary_r frames).2 =
      ((AudioDucker.limiter
          (AudioDucker.mixedChannel s (AudioDucker.process s samplerate st
            primary_l primary_r secondary_l secondary_r
            frames).1.duck_amount primary_l secondary_l)
          (AudioDucker.mixedChannel s (AudioDucker.process s samplerate st
            primary_l primary_r secondary_l secondary_r
            frames).1.duck_amount primary_r secondary_r)).1,
       (AudioDucker.limiter
          (AudioDucker.mixedChannel s (AudioDucker.process s samplerate st
            primary_l primary_r secondary_l secondary_r
            frames).1.duck_amount primary_l secondary_l)
          (AudioDucker.mixedChannel s (AudioDucker.process s samplerate st
            primary_l primary_r secondary_l secondary_r
            frames).1.duck_amount primary_r secondary_r)).2.1) := rfl

/-- The clipping flag the block records is the limiter's flag on the same
mixed channels (`audio_ducker.py:332` and `audio_ducker.py:343`). -/
theorem AudioDucker.process_clipping_eq (s : AudioDucker.Settings)
    (samplerate : ℝ) (st : AudioDucker.EngineState)
    (primary_l primary_r secondary_l secondary_r : List ℝ) (frames : ℕ) :
    (AudioDucker.process s samplerate st primary_l primary_r secondary_l
        secondary_r frames).1.clipping =
      (AudioDucker.limiter
          (AudioDucker.mixedChannel s (AudioDucker.process s samplerate st
            primary_l primary_r secondary_l secondary_r
            frames).1.duck_amount primary_l secondary_l)
          (AudioDucker.mixedChannel s (AudioDucker.process s samplerate st
            primary_l primary_r secondary_l secondary_r
            frames).1.duck_amount primary_r secondary_r)).2.2 := rfl

/-- Scaling every sample by `1 / m` (for `m > 0`) scales a `foldr max 0`
peak by `1 / m`. -/
theorem foldr_max_zero_div (xs : List ℝ) (m : ℝ) (hm : 0 < m) :
    (xs.map (fun x => x / m)).foldr max 0 = xs.foldr max 0 / m := by
  induction xs with
  | nil => simp
  | cons a t ih => simp [ih, max_div_div_right hm.le]

/-- Dividing both channels by a positive constant divides the joint peak
absolute sample by that constant. -/
theorem AudioDucker.peakAbs_map_div (l r : List ℝ) (m : ℝ) (hm : 0 < m) :
    AudioDucker.peakAbs (l.map (fun x => x / m)) (r.map (fun x => x / m)) =
      AudioDucker.peakAbs l r / m := by
  unfold AudioDucker.peakAbs
  rw [← List.map_append, List.map_map]
  have hfun : ((fun x => |x|) ∘ fun x => x / m) =
      ((fun x => x / m) ∘ fun x => |x|) := by
    funext x
    simp [Function.comp, abs_div, abs_of_pos hm]
  rw [hfun, ← List.map_map, foldr_max_zero_div _ m hm]

/-- When the joint peak exceeds `1.0` the limiter divides both channels by
the peak, reports clipping, and the resulting joint peak is exactly `1`. -/
theorem AudioDucker.limiter_engaged (l r : List ℝ)
    (h : AudioDucker.peakAbs l r > 1) :
    (AudioDucker.limiter l r).1 =
      l.map (fun x => x / AudioDucker.peakAbs l r) ∧
    (AudioDucker.limiter l r).2.1 =
      r.map (fun x => x / AudioDucker.peakAbs l r) ∧
    (AudioDucker.limiter l r).2.2 = true ∧
    AudioDucker.peakAbs (AudioDucker.limiter l r).1
      (AudioDucker.limiter l r).2.1 = 1 := by
  have hpos : (0 : ℝ) < AudioDucker.peakAbs l r := lt_trans one_pos h
  unfold AudioDucker.limiter
  rw [if_pos h]
  refine ⟨rfl, rfl, rfl, ?_⟩
  simp only
  rw [AudioDucker.peakAbs_map_div l r _ hpos, div_self (ne_of_gt hpos)]

/-- When the joint peak does not exceed `1.0` (including exactly `1.0`),
the limiter passes both channels through untouched and reports no
clipping. -/
theorem AudioDucker.limiter_bypass (l r : List ℝ)
    (h : ¬ AudioDucker.peakAbs l r > 1) :
    (AudioDucker.limiter l r).1 = l ∧ (AudioDucker.limiter l r).2.1 = r ∧
    (AudioDucker.limiter l r).2.2 = false := by
  unfold AudioDucker.limiter
  rw [if_neg h]
  exact ⟨rfl, rfl, rfl⟩

/-- C3: per block, `process` rescales its output exactly when the peak
absolute sample across the two pre-limiter mixed channels strictly exceeds
`1.0` (a peak of exactly `1.0` passes through unscaled); when it engages,
both channels are divided by that peak so the output's joint peak is
exactly `1.0`; and the clipping flag recorded in the block's state equals
`peak > 1.0`. -/
theorem AudioDucker.process_limiter_correct (s : AudioDucker.Settings)
    (samplerate : ℝ) (st : AudioDucker.EngineState)
    (primary_l primary_r secondary_l secondary_r : List ℝ) (frames : ℕ) :
    ((AudioDucker.process s samplerate st primary_l primary_r secondary_l
        secondary_r frames).1.clipping = true ↔
      AudioDucker.peakAbs
        (AudioDucker.mixedChannel s (AudioDucker.process s samplerate st
          primary_l primary_r secondary_l secondary_r frames).1.duck_amount
          primary_l secondary_l)
        (AudioDucker.mixedChannel s (AudioDucker.process s samplerate st
          primary_l primary_r secondary_l secondary_r frames).1.duck_amount
          primary_r secondary_r) > 1) ∧
    (AudioDucker.peakAbs
        (AudioDucker.mixedChannel s (AudioDucker.process s samplerate st
          primary_l primary_r secondary_l secondary_r frames).1.duck_amount
          primary_l secondary_l)
        (AudioDucker.mixedChannel s (AudioDucker.process s samplerate st
          primary_l primary_r secondary_l secondary_r frames).1.duck_amount
          primary_r secondary_r) > 1 →
      (AudioDucker.process s samplerate st primary_l primary_r secondary_l
          secondary_r frames).2.1 =
        (AudioDucker.mixedChannel s (AudioDucker.process s samplerate st
          primary_l primary_r secondary_l secondary_r frames).1.duck_amount
          primary_l secondary_l).map (fun x => x /
            AudioDucker.peakAbs
              (AudioDucker.mixedChannel s (AudioDucker.process s samplerate
                st primary_l primary_r secondary_l secondary_r
                frames).1.duck_amount primary_l secondary_l)
              (AudioDucker.mixedChannel s (AudioDucker.process s samplerate
                st primary_l primary_r secondary_l secondary_r
                frames).1.duck_amount primary_r secondary_r)) ∧
      (AudioDucker.process s samplerate st primary_l primary_r secondary_l
          secondary_r frames).2.2 =
        (AudioDucker.mixedChannel s (AudioDucker.process s samplerate st
          primary_l primary_r secondary_l secondary_r frames).1.duck_amount
          primary_r secondary_r).map (fun x => x /
            AudioDucker.peakAbs
              (AudioDucker.mixedChannel s (AudioDucker.process s samplerate
                st primary_l primary_r secondary_l secondary_r
                frames).1.duck_amount primary_l secondary_l)
              (AudioDucker.mixedChannel s (AudioDucker.process s samplerate
                st primary_l primary_r secondary_l secondary_r
                frames).1.duck_amount primary_r secondary_r)) ∧
      AudioDucker.peakAbs
        (AudioDucker.process s samplerate st primary_l primary_r secondary_l
          secondary_r frames).2.1
        (AudioDucker.process s samplerate st primary_l primary_r secondary_l
          secondary_r frames).2.2 = 1) ∧
    (¬ AudioDucker.peakAbs
        (AudioDucker.mixedChannel s (AudioDucker.process s samplerate st
          primary_l primary_r secondary_l secondary_r frames).1.duck_amount
          primary_l secondary_l)
        (AudioDucker.mixedChannel s (AudioDucker.process s samplerate st
          primary_l primary_r secondary_l secondary_r frames).1.duck_amount
          primary_r secondary_r) > 1 →
      (AudioDucker.process s samplerate st primary_l primary_r secondary_l
          secondary_r frames).2.1 =
        AudioDucker.mixedChannel s (AudioDucker.process s samplerate st
          primary_l primary_r secondary_l secondary_r frames).1.duck_amount
          primary_l secondary_l ∧
      (AudioDucker.process s samplerate st primary_l primary_r secondary_l
          secondary_r frames).2.2 =
        AudioDucker.mixedChannel s (AudioDucker.process s samplerate st
          primary_l primary_r secondary_l secondary_r frames).1.duck_amount
          primary_r secondary_r) := by
  rw [AudioDucker.process_clipping_eq, AudioDucker.process_output_eq]
  set ML := AudioDucker.mixedChannel s (AudioDucker.process s samplerate st
    primary_l primary_r secondary_l secondary_r frames).1.duck_amount
    primary_l secondary_l with hML
  set MR := AudioDucker.mixedChannel s (AudioDucker.process s samplerate st
    primary_l primary_r secondary_l secondary_r frames).1.duck_amount
    primary_r secondary_r with hMR
  by_cases h : AudioDucker.peakAbs ML MR > 1
  · obtain ⟨e1, e2, e3, e4⟩ := AudioDucker.limiter_engaged ML MR h
    exact ⟨by simp [e3, h], fun _ => ⟨e1, e2, by simpa using e4⟩,
      fun hc => absurd h hc⟩
  · obtain ⟨e1, e2, e3⟩ := AudioDucker.limiter_bypass ML MR h
    exact ⟨by simp [e3, h], fun hc => absurd hc h, fun _ => ⟨e1, e2⟩⟩

/-- Witness for C3 on a concrete block whose mixed peak is `2`: clipping
is reported and the normalised output peaks at exactly `1`. -/
theorem AudioDucker.process_limiter_correct_witness :
    (AudioDucker.process ⟨-40, -20, 50, 500, 0, 0, 0⟩ 48000
        ⟨1, 1, 0, 0, 0, false⟩ [2] [0] [0] [0] 1).1.clipping = true ∧
    AudioDucker.peakAbs
      (AudioDucker.process ⟨-40, -20, 50, 500, 0, 0, 0⟩ 48000
        ⟨1, 1, 0, 0, 0, false⟩ [2] [0] [0] [0] 1).2.1
      (AudioDucker.process ⟨-40, -20, 50, 500, 0, 0, 0⟩ 48000
        ⟨1, 1, 0, 0, 0, false⟩ [2] [0] [0] [0] 1).2.2 = 1 := by
  have h := AudioDucker.process_limiter_correct ⟨-40, -20, 50, 500, 0, 0, 0⟩
    48000 ⟨1, 1, 0, 0, 0, false⟩ [2] [0] [0] [0] 1
  have hpk : AudioDucker.peakAbs
      (AudioDucker.mixedChannel ⟨-40, -20, 50, 500, 0, 0, 0⟩
        (AudioDucker.process ⟨-40, -20, 50, 500, 0, 0, 0⟩ 48000
          ⟨1, 1, 0, 0, 0, false⟩ [2] [0] [0] [0] 1).1.duck_amount [2] [0])
      (AudioDucker.mixedChannel ⟨-40, -20, 50, 500, 0, 0, 0⟩
        (AudioDucker.process ⟨-40, -20, 50, 500, 0, 0, 0⟩ 48000
          ⟨1, 1, 0, 0, 0, false⟩ [2] [0] [0] [0] 1).1.duck_amount [0] [0])
      > 1 := by
    norm_num [AudioDucker.mixedChannel, AudioDucker.applyGain,
      AudioDucker.peakAbs, AudioDucker.db_to_linear]
  exact ⟨h.1.mpr hpk, (h.2.1 hpk).2.2⟩
